import Mathlib

/-!
# Verification of the Food-Delivery-Time-Prediction pipeline

A shallow embedding of the two source files of the repository
(`model/predict.py` and `model/train_model.py`) together with proofs of the
specification claims about them.

Modelling choices:
* Python numbers are embedded as `ℚ` (the arithmetic of the pipeline is
  plain field arithmetic; the square root inside `np.std` is abstracted by
  an explicit function parameter or characterised relationally by
  `s * s = variance`).
* A pandas one-row DataFrame / Python dict is an association list from
  column names to values, with lookup returning the most recent binding.
* Fallible Python code (exceptions) is embedded with `Option` / `Except`.
-/

set_option autoImplicit false

namespace FoodDelivery

/-- A Python value stored in an input record / DataFrame cell: either a
string (categorical field) or a number (numeric field). -/
inductive Value where
  | str : String → Value
  | num : ℚ → Value
  deriving DecidableEq, Repr

/-- A one-row DataFrame / input dict: an association list from column names
to cell values.  Lookup returns the most recent binding, so assignment is
modelled by consing in front. -/
abbrev InputRecord := List (String × Value)

/-- `df[k]` / `dict.get(k)`: the value bound to column `k`, if any. -/
def lookupField (df : InputRecord) (k : String) : Option Value :=
  (df.find? (fun p => p.1 = k)).map Prod.snd

/-- `df[k] = v`: (re)bind column `k` to value `v`. -/
def setCol (df : InputRecord) (k : String) (v : Value) : InputRecord :=
  (k, v) :: df

/-- `params.get(k, d)` from `predict_with_breakdown`: the bound value, or
the default when the key is absent. -/
def getParam (df : InputRecord) (k : String) (d : Value) : Value :=
  match lookupField df k with
  | some v => v
  | none => d

/-- View a cell as a number; `none` models the `TypeError` Python raises
when arithmetic meets a non-numeric cell. -/
def asNum : Value → Option ℚ
  | .num q => some q
  | .str _ => none

/-- A persisted sklearn `LabelEncoder`: its sorted `classes_` list.
`transform` maps a label to its index and raises (here: `none`) on a label
outside `classes_`. -/
structure LabelEncoder where
  classes : List String
  deriving DecidableEq, Repr

/-- `LabelEncoder.transform` on a single label: index in `classes_`, or
`none` for the `ValueError` raised on an unseen label. -/
def LabelEncoder.transform (e : LabelEncoder) (s : String) : Option Nat :=
  e.classes.findIdx? (fun c => c = s)

/-- The categorical columns of `preprocess_input` (predict.py line 45). -/
def categorical_cols : List String :=
  ["vehicle_type", "order_type", "weather_condition", "time_of_day", "day_of_week"]

/-- The eight fields of an Order Record (spec section 3). -/
def orderFields : List String :=
  ["delivery_person_rating", "distance_km", "preparation_time", "vehicle_type",
   "order_type", "weather_condition", "time_of_day", "day_of_week"]

/-- The feature columns fixed at training time (train_model.py lines 103-108);
the persisted bundle's `feature_columns`. -/
def trainedFeatureCols : List String :=
  ["delivery_person_rating", "distance_km", "preparation_time",
   "vehicle_type_encoded", "order_type_encoded", "weather_condition_encoded",
   "time_of_day_encoded", "day_of_week_encoded",
   "distance_squared", "rating_distance_interaction"]

/-- The numeric code written into `col + "_encoded"` for a present
categorical cell (predict.py lines 50-55): the encoder's code for a seen
string label, and the default `0` on the caught `ValueError` for an unseen
one. -/
def encCode (enc : String → LabelEncoder) (c : String) : Value → ℚ
  | .str s =>
    match (enc c).transform s with
    | some n => (n : ℚ)
    | none => 0
  | .num _ => 0

/-- One iteration of the encoding loop (predict.py lines 48-55): if column
`c` is present, add `c + "_encoded"`; otherwise leave the frame unchanged. -/
def encStep (enc : String → LabelEncoder) (df : InputRecord) (c : String) : InputRecord :=
  match lookupField df c with
  | none => df
  | some v => setCol df (c ++ "_encoded") (.num (encCode enc c v))

/-- The whole encoding loop over a list of categorical columns. -/
def encodeCats (enc : String → LabelEncoder) (df : InputRecord) : List String → InputRecord
  | [] => df
  | c :: cs => encodeCats enc (encStep enc df c) cs

/-- Feature engineering (predict.py lines 57-61): add `distance_squared`
and `rating_distance_interaction`.  A missing or non-numeric `distance_km`
or `delivery_person_rating` raises (`KeyError` / `TypeError`), modelled by
`none`. -/
def featureEngineer (df : InputRecord) : Option InputRecord :=
  match lookupField df "distance_km", lookupField df "delivery_person_rating" with
  | some (.num d), some (.num r) =>
    some (setCol (setCol df "distance_squared" (.num (d ^ 2)))
      "rating_distance_interaction" (.num (r * d)))
  | _, _ => none

/-- The zero-fill loop and final column selection (predict.py lines 66-71):
every feature column absent at this point is filled with `0`, then the
columns are selected in the bundle's fixed order. -/
def selectFill (df : InputRecord) (cols : List String) : List Value :=
  cols.map (fun c =>
    match lookupField df c with
    | some v => v
    | none => .num 0)

/-- The persisted Model Artifact Bundle (the parts `predict` consumes):
per-column label encoders, the ordered feature columns, the scaler's
per-column statistics, and the ensemble members, each mapping a scaled
feature vector to that tree's prediction. -/
structure ModelArtifacts where
  label_encoders : String → LabelEncoder
  feature_columns : List String
  scalerMean : String → ℚ
  scalerStd : String → ℚ
  trees : List (List ℚ → ℚ)

/-- `preprocess_input` (predict.py lines 29-71) on an already-loaded bundle:
encode categoricals, feature-engineer, zero-fill and select.  `none` models
the exceptions that escape it. -/
def preprocess_input (arts : ModelArtifacts) (input : InputRecord) : Option (List Value) :=
  (featureEngineer (encodeCats arts.label_encoders input categorical_cols)).map
    (fun df => selectFill df arts.feature_columns)

/-- `scaler.transform` (predict.py line 84): `(x - mean)/std` per column;
`none` models the exception raised on a non-numeric cell. -/
def scaleFeatures (arts : ModelArtifacts) (vals : List Value) : Option (List ℚ) :=
  (arts.feature_columns.zip vals).mapM
    (fun cv => (asNum cv.2).map (fun x => (x - arts.scalerMean cv.1) / arts.scalerStd cv.1))

/-- Mean of the ensemble members' predictions: `model.predict` of a random
forest, and the `np.mean` underlying `np.std` (predict.py lines 88, 92-93). -/
def ensembleMean (preds : List ℚ) : ℚ :=
  preds.sum / preds.length

/-- Population variance of the ensemble members' predictions: the square of
`np.std(tree_predictions, axis=0)` (predict.py line 93). -/
def ensembleVariance (preds : List ℚ) : ℚ :=
  ((preds.map (fun p => (p - ensembleMean preds) ^ 2)).sum) / preds.length

/-- The confidence formula (predict.py line 94):
`np.maximum(0.6, 1 - prediction_std / prediction)`. -/
def confidence (std prediction : ℚ) : ℚ :=
  max (6 / 10) (1 - std / prediction)

/-- The error conditions a predictor call can surface:
* `modelNotLoaded`: the explicit `ValueError("Model not loaded...")`;
* `predictionFailed`: the wrapped `ValueError(f"Prediction failed: ...")`
  raised by `predict`'s catch-all handler;
* `rawTypeError`: a raw `TypeError` escaping `predict_with_breakdown`'s
  un-guarded breakdown arithmetic. -/
inductive PredError where
  | modelNotLoaded
  | predictionFailed
  | rawTypeError
  deriving DecidableEq, Repr

/-- The dictionary returned by `predict` (predict.py lines 96-100). -/
structure PredictionResult where
  estimated_time : ℚ
  confidence : ℚ
  prediction_std : ℚ
  deriving DecidableEq, Repr

/-- `load_model` (predict.py lines 16-27): the artifact file either
deserialises to a bundle or raises; on any exception the predictor's
`model_artifacts` is left as `None`. -/
def load_model (file : Except String ModelArtifacts) : Option ModelArtifacts :=
  match file with
  | .ok arts => some arts
  | .error _ => none

/-- `predict` (predict.py lines 73-103).  `sqrtFn` abstracts the square
root inside `np.std` (the only non-rational step); `artifacts` is the
predictor's `model_artifacts` state. -/
def predict (sqrtFn : ℚ → ℚ) (artifacts : Option ModelArtifacts)
    (input : InputRecord) : Except PredError PredictionResult :=
  match artifacts with
  | none => .error .modelNotLoaded
  | some arts =>
    match preprocess_input arts input with
    | none => .error .predictionFailed
    | some vals =>
      match scaleFeatures arts vals with
      | none => .error .predictionFailed
      | some xs =>
        let preds := arts.trees.map (fun t => t xs)
        let est := ensembleMean preds
        let std := sqrtFn (ensembleVariance preds)
        .ok { estimated_time := est, confidence := confidence std est, prediction_std := std }

/-- Python 3 `round` to an integer: nearest integer, ties to the even one. -/
def pyRound (q : ℚ) : ℤ :=
  if q - ⌊q⌋ < 1 / 2 then ⌊q⌋
  else if 1 / 2 < q - ⌊q⌋ then ⌊q⌋ + 1
  else if ⌊q⌋ % 2 = 0 then ⌊q⌋ else ⌊q⌋ + 1

/-- The weather-delay table keyed by raw string
(predict.py lines 128-131 and train_model.py lines 53-56); `.get`'s
default is `0`. -/
def weatherDelayStr (s : String) : ℚ :=
  if s = "clear" then 0
  else if s = "cloudy" then 1
  else if s = "light_rain" then 3
  else if s = "heavy_rain" then 8
  else if s = "storm" then 15
  else 0

/-- `weather_delays.get(weather, 0)` on an arbitrary cell value: a
non-string key is simply not in the dict, giving the default `0`. -/
def weatherDelay : Value → ℚ
  | .str s => weatherDelayStr s
  | .num _ => 0

/-- The time-of-day delay table (train_model.py line 63), default `0`. -/
def timeDelayStr (s : String) : ℚ :=
  if s = "morning" then 2
  else if s = "afternoon" then 1
  else if s = "evening" then 4
  else if s = "night" then 0
  else 0

/-- The `breakdown` dictionary of `predict_with_breakdown`
(predict.py lines 139-144); each entry is `round`ed to an integer. -/
structure Breakdown where
  preparation_time : ℤ
  travel_time : ℤ
  weather_delay : ℤ
  traffic_and_other : ℤ
  deriving DecidableEq, Repr

/-- The `factors` dictionary (predict.py lines 145-150): the raw inputs
(or their fallbacks) echoed back. -/
structure Factors where
  delivery_person_rating : Value
  vehicle_type : Value
  distance_km : Value
  weather_condition : Value
  deriving DecidableEq, Repr

/-- The dictionary returned by `predict_with_breakdown`
(predict.py lines 137-151): the `predict` result spread out, plus the
breakdown and factors. -/
structure BreakdownResult where
  estimated_time : ℚ
  confidence : ℚ
  prediction_std : ℚ
  breakdown : Breakdown
  factors : Factors
  deriving DecidableEq, Repr

/-- `predict_with_breakdown` (predict.py lines 105-151). -/
def predict_with_breakdown (sqrtFn : ℚ → ℚ) (artifacts : Option ModelArtifacts)
    (input : InputRecord) : Except PredError BreakdownResult :=
  match predict sqrtFn artifacts input with
  | .error e => .error e
  | .ok base =>
    let prepV := getParam input "preparation_time" (.num 15)
    let distV := getParam input "distance_km" (.num 3)
    let ratV := getParam input "delivery_person_rating" (.num 4)
    let vehV := getParam input "vehicle_type" (.str "bike")
    let weaV := getParam input "weather_condition" (.str "clear")
    match asNum prepV, asNum distV, asNum ratV with
    | some prep, some dist, some rating =>
      let base_speed : ℚ := if vehV = .str "bike" then 7 / 2 else 5
      let efficiency : ℚ := rating / 5 * (4 / 5) + 1 / 5
      let travel_time : ℚ := dist * base_speed / efficiency
      let weather_delay : ℚ := weatherDelay weaV
      let remaining : ℚ := max 0 (base.estimated_time - prep - travel_time - weather_delay)
      .ok { estimated_time := base.estimated_time
            confidence := base.confidence
            prediction_std := base.prediction_std
            breakdown :=
              { preparation_time := pyRound prep
                travel_time := pyRound travel_time
                weather_delay := pyRound weather_delay
                traffic_and_other := pyRound remaining }
            factors :=
              { delivery_person_rating := ratV
                vehicle_type := vehV
                distance_km := distV
                weather_condition := weaV } }
    | _, _, _ => .error .rawTypeError

/-- An Order Record (train_model.py: one row of the generated DataFrame;
spec section 3). -/
structure OrderRow where
  delivery_person_rating : ℚ
  distance_km : ℚ
  preparation_time : ℚ
  vehicle_type : String
  order_type : String
  weather_condition : String
  time_of_day : String
  day_of_week : String
  deriving DecidableEq, Repr

/-- `calculate_delivery_time` (train_model.py lines 39-79) on a single row;
the `np.random.normal(0, 2)` noise term is an explicit input. -/
def calculate_delivery_time (row : OrderRow) (noise : ℚ) : ℚ :=
  let base_speed : ℚ := if row.vehicle_type = "bike" then 7 / 2 else 5
  let travel0 := row.distance_km * base_speed
  let efficiency : ℚ := row.delivery_person_rating / 5 * (4 / 5) + 1 / 5
  let travel := travel0 / efficiency
  let weather_delay := weatherDelayStr row.weather_condition
  let order_delay : ℚ := if row.order_type = "delicate" then 3 else 0
  let time_delay := timeDelayStr row.time_of_day
  let weekend_factor : ℚ := if row.day_of_week = "weekend" then 9 / 10 else 1
  let total := (row.preparation_time + travel + weather_delay + order_delay + time_delay)
      * weekend_factor + noise
  max total 10

/-- One record's worth of raw draws from the seeded RNG, before the
post-processing of `generate_sample_data` (train_model.py lines 16-29). -/
structure RawDraws where
  rating : ℚ
  distance : ℚ
  prep : ℚ
  vehicle : String
  order : String
  weather : String
  timeOfDay : String
  dayOfWeek : String
  deriving DecidableEq, Repr

/-- The post-processing `generate_sample_data` applies to one drawn record
(train_model.py lines 31-35): absolute value on the distance, floor at 5 on
the preparation time. -/
def mkRecord (d : RawDraws) : OrderRow :=
  { delivery_person_rating := d.rating
    distance_km := |d.distance|
    preparation_time := max d.prep 5
    vehicle_type := d.vehicle
    order_type := d.order
    weather_condition := d.weather
    time_of_day := d.timeOfDay
    day_of_week := d.dayOfWeek }

/-- `generate_sample_data` (train_model.py lines 11-37) as a function of
the raw RNG draws. -/
def generate_sample_data (draws : List RawDraws) : List OrderRow :=
  draws.map mkRecord

/-- `generate_sample_data` with the RNG made explicit: `np.random.seed`
(train_model.py line 13) makes the sequence of draws a pure function `rng`
of the seed and the sample count. -/
def generate_sample_data_seeded (rng : Nat → Nat → List RawDraws)
    (seed n : Nat) : List OrderRow :=
  generate_sample_data (rng seed n)

/-! ## Concrete instances used to exercise the pipeline

A bundle shaped exactly like the one `train_model.py` persists: the label
encoders hold the sorted category sets of the training data, the feature
columns are the trained ones, and the ensemble is instantiated with a
single constant tree (tree functions are opaque to every claim). -/

/-- The label encoders `train_model.py` fits: each holds the sorted
category list of the corresponding training column. -/
def sampleEncoders : String → LabelEncoder := fun c =>
  if c = "vehicle_type" then ⟨["bicycle", "bike"]⟩
  else if c = "order_type" then ⟨["delicate", "normal"]⟩
  else if c = "weather_condition" then
    ⟨["clear", "cloudy", "heavy_rain", "light_rain", "storm"]⟩
  else if c = "time_of_day" then ⟨["afternoon", "evening", "morning", "night"]⟩
  else if c = "day_of_week" then ⟨["weekday", "weekend"]⟩
  else ⟨[]⟩

/-- An ensemble member that predicts a constant time. -/
def constTree (q : ℚ) : List ℚ → ℚ := fun _ => q

/-- A concrete loaded bundle used by the witnesses and counterexamples. -/
def sampleArts : ModelArtifacts :=
  { label_encoders := sampleEncoders
    feature_columns := trainedFeatureCols
    scalerMean := fun _ => 0
    scalerStd := fun _ => 1
    trees := [constTree 25] }

/-- A concrete stand-in for the square root inside `np.std`; on the
single-tree `sampleArts` the variance is `0`, whose square root is `0`. -/
def sqrtZero : ℚ → ℚ := fun _ => 0

/-- The example order of the spec (section 8) and of predict.py's test
block (lines 175-184). -/
def exampleInput : InputRecord :=
  [("delivery_person_rating", .num (21 / 5)), ("distance_km", .num (7 / 2)),
   ("preparation_time", .num 15), ("vehicle_type", .str "bike"),
   ("order_type", .str "normal"), ("weather_condition", .str "clear"),
   ("time_of_day", .str "evening"), ("day_of_week", .str "weekday")]

/-- The example order with its `distance_km` column omitted. -/
def exampleNoDistance : InputRecord :=
  [("delivery_person_rating", .num (21 / 5)),
   ("preparation_time", .num 15), ("vehicle_type", .str "bike"),
   ("order_type", .str "normal"), ("weather_condition", .str "clear"),
   ("time_of_day", .str "evening"), ("day_of_week", .str "weekday")]

/-! ## Derived views of a record used in the statements -/

/-- An input record is a well-formed (possibly partial) Order Record: every
bound column is one of the eight Order-Record fields, categorical fields
hold strings and the remaining fields hold numbers. -/
def WellFormedInput (input : InputRecord) : Prop :=
  ∀ p ∈ input, p.1 ∈ orderFields ∧
    (p.1 ∈ categorical_cols → ∃ s, p.2 = Value.str s) ∧
    (p.1 ∉ categorical_cols → ∃ q, p.2 = Value.num q)

/-- The number the preprocessed `preparation_time` feature ends up as: the
bound value, or the zero-fill default when the column is absent. -/
def prepVal (input : InputRecord) : ℚ :=
  match lookupField input "preparation_time" with
  | some (.num q) => q
  | _ => 0

/-- The number the preprocessed `c + "_encoded"` feature ends up as: the
encoder code of a present cell (with the unseen-category default `0`), or
the zero-fill default when column `c` is absent. -/
def encVal (enc : String → LabelEncoder) (input : InputRecord) (c : String) : ℚ :=
  match lookupField input c with
  | none => 0
  | some v => encCode enc c v

/-! ## Lookup lemmas for the association-list DataFrame -/

theorem lookupField_setCol_self (df : InputRecord) (k : String) (v : Value) :
    lookupField (setCol df k v) k = some v := by
  simp [lookupField, setCol]

theorem lookupField_setCol_ne (df : InputRecord) (k : String) (v : Value)
    (k' : String) (h : k' ≠ k) :
    lookupField (setCol df k v) k' = lookupField df k' := by
  simp [lookupField, setCol, List.find?_cons_of_neg, Ne.symm h]

theorem lookupField_encStep (enc : String → LabelEncoder) (df : InputRecord)
    (c k : String) :
    lookupField (encStep enc df c) k =
      if k = c ++ "_encoded" then
        match lookupField df c with
        | none => lookupField df k
        | some v => some (.num (encCode enc c v))
      else lookupField df k := by
  unfold encStep
  cases h : lookupField df c with
  | none => simp
  | some v =>
    by_cases hk : k = c ++ "_encoded"
    · subst hk; simp [lookupField_setCol_self]
    · simp [hk, lookupField_setCol_ne _ _ _ _ hk]

theorem lookupField_encodeCats_of_ne (enc : String → LabelEncoder)
    (df : InputRecord) (cs : List String) (k : String)
    (h : ∀ c ∈ cs, k ≠ c ++ "_encoded") :
    lookupField (encodeCats enc df cs) k = lookupField df k := by
  induction cs generalizing df with
  | nil => rfl
  | cons c cs ih =>
    rw [encodeCats, ih _ (fun c' hc' => h c' (List.mem_cons_of_mem _ hc')),
      lookupField_encStep, if_neg (h c (List.mem_cons_self c cs))]

theorem lookupField_encodeCats_encoded (enc : String → LabelEncoder) (c : String) :
    ∀ (cs : List String) (df : InputRecord), c ∈ cs → cs.Nodup →
      (∀ c' ∈ cs, c ≠ c' ++ "_encoded") →
      (∀ c' ∈ cs, c' ≠ c → c ++ "_encoded" ≠ c' ++ "_encoded") →
      lookupField (encodeCats enc df cs) (c ++ "_encoded") =
        match lookupField df c with
        | none => lookupField df (c ++ "_encoded")
        | some v => some (.num (encCode enc c v)) := by
  intro cs
  induction cs with
  | nil => intro df hc _ _ _; cases hc
  | cons c' cs ih =>
    intro df hc hnd hraw henc
    rw [List.nodup_cons] at hnd
    rw [encodeCats]
    rcases List.mem_cons.mp hc with hcc | hmem
    · subst hcc
      rw [lookupField_encodeCats_of_ne enc _ cs _
        (fun c'' hc'' => henc c'' (List.mem_cons_of_mem _ hc'')
          (fun he => hnd.1 (he ▸ hc''))),
        lookupField_encStep, if_pos rfl]
    · have hcc : c ≠ c' := fun he => hnd.1 (he ▸ hmem)
      rw [ih (encStep enc df c') hmem hnd.2
        (fun c'' hc'' => hraw c'' (List.mem_cons_of_mem _ hc''))
        (fun c'' hc'' hne => henc c'' (List.mem_cons_of_mem _ hc'') hne),
        lookupField_encStep,
        if_neg (hraw c' (List.mem_cons_self c' cs) : c ≠ c' ++ "_encoded"),
        lookupField_encStep,
        if_neg (henc c' (List.mem_cons_self c' cs) (Ne.symm hcc))]

theorem wf_lookup_none (input : InputRecord) (hwf : WellFormedInput input)
    (k : String) (hk : k ∉ orderFields) : lookupField input k = none := by
  unfold lookupField
  cases h : input.find? (fun p => p.1 = k) with
  | none => rfl
  | some p =>
    have hp : p.1 = k := by
      have hfind := List.find?_some h
      simpa using hfind
    exact absurd (hp ▸ (hwf p (List.mem_of_find?_eq_some h)).1) hk

theorem wf_lookup_num (input : InputRecord) (hwf : WellFormedInput input)
    (k : String) (hk : k ∉ categorical_cols) (v : Value)
    (h : lookupField input k = some v) : ∃ q, v = Value.num q := by
  unfold lookupField at h
  obtain ⟨p, hp, hpv⟩ := Option.map_eq_some'.mp h
  have hk' : p.1 = k := by
    have hfind := List.find?_some hp
    simpa using hfind
  exact hpv ▸ ((hwf p (List.mem_of_find?_eq_some hp)).2.2 (hk' ▸ hk))

theorem fill_prep (input : InputRecord) (hwf : WellFormedInput input) :
    (match lookupField input "preparation_time" with
      | some v => v
      | none => Value.num 0) = Value.num (prepVal input) := by
  unfold prepVal
  cases h : lookupField input "preparation_time" with
  | none => rfl
  | some v =>
    obtain ⟨q, rfl⟩ := wf_lookup_num input hwf "preparation_time" (by decide) v h
    rfl

theorem fill_of_enc (enc : String → LabelEncoder) (input : InputRecord) (c : String) :
    (match (match lookupField input c with
            | none => (none : Option Value)
            | some v => some (Value.num (encCode enc c v))) with
      | some v => v
      | none => Value.num 0) = Value.num (encVal enc input c) := by
  unfold encVal
  cases lookupField input c <;> rfl

/-- Master characterisation of `preprocess_input` on a well-formed record
whose `distance_km` and `delivery_person_rating` are present and numeric:
preprocessing succeeds and produces exactly the ten trained feature values,
with every absent column zero-filled. -/
theorem preprocess_input_spec (arts : ModelArtifacts)
    (hcols : arts.feature_columns = trainedFeatureCols)
    (input : InputRecord) (hwf : WellFormedInput input) (d r : ℚ)
    (hd : lookupField input "distance_km" = some (.num d))
    (hr : lookupField input "delivery_person_rating" = some (.num r)) :
    preprocess_input arts input = some
      [.num r, .num d, .num (prepVal input),
       .num (encVal arts.label_encoders input "vehicle_type"),
       .num (encVal arts.label_encoders input "order_type"),
       .num (encVal arts.label_encoders input "weather_condition"),
       .num (encVal arts.label_encoders input "time_of_day"),
       .num (encVal arts.label_encoders input "day_of_week"),
       .num (d ^ 2), .num (r * d)] := by
  have hkeep : ∀ k : String, (∀ c ∈ categorical_cols, k ≠ c ++ "_encoded") →
      lookupField (encodeCats arts.label_encoders input categorical_cols) k =
        lookupField input k :=
    fun k hk => lookupField_encodeCats_of_ne arts.label_encoders input categorical_cols k hk
  have hdE : lookupField (encodeCats arts.label_encoders input categorical_cols)
      "distance_km" = some (.num d) := by rw [hkeep _ (by decide)]; exact hd
  have hrE : lookupField (encodeCats arts.label_encoders input categorical_cols)
      "delivery_person_rating" = some (.num r) := by rw [hkeep _ (by decide)]; exact hr
  have h0 : lookupField
      (setCol (setCol (encodeCats arts.label_encoders input categorical_cols)
        "distance_squared" (Value.num (d ^ 2)))
        "rating_distance_interaction" (Value.num (r * d)))
      "delivery_person_rating" = some (.num r) := by
    rw [lookupField_setCol_ne _ _ _ "delivery_person_rating" (by decide),
        lookupField_setCol_ne _ _ _ "delivery_person_rating" (by decide)]
    exact hrE
  have h1 : lookupField
      (setCol (setCol (encodeCats arts.label_encoders input categorical_cols)
        "distance_squared" (Value.num (d ^ 2)))
        "rating_distance_interaction" (Value.num (r * d)))
      "distance_km" = some (.num d) := by
    rw [lookupField_setCol_ne _ _ _ "distance_km" (by decide),
        lookupField_setCol_ne _ _ _ "distance_km" (by decide)]
    exact hdE
  have h2 : lookupField
      (setCol (setCol (encodeCats arts.label_encoders input categorical_cols)
        "distance_squared" (Value.num (d ^ 2)))
        "rating_distance_interaction" (Value.num (r * d)))
      "preparation_time" = lookupField input "preparation_time" := by
    rw [lookupField_setCol_ne _ _ _ "preparation_time" (by decide),
        lookupField_setCol_ne _ _ _ "preparation_time" (by decide)]
    exact hkeep _ (by decide)
  have hencL : ∀ c : String, c ∈ categorical_cols →
      (∀ c' ∈ categorical_cols, c ≠ c' ++ "_encoded") →
      (∀ c' ∈ categorical_cols, c' ≠ c → c ++ "_encoded" ≠ c' ++ "_encoded") →
      (c ++ "_encoded") ∉ orderFields →
      (c ++ "_encoded") ≠ "rating_distance_interaction" →
      (c ++ "_encoded") ≠ "distance_squared" →
      lookupField
        (setCol (setCol (encodeCats arts.label_encoders input categorical_cols)
          "distance_squared" (Value.num (d ^ 2)))
          "rating_distance_interaction" (Value.num (r * d)))
        (c ++ "_encoded") =
      (match lookupField input c with
        | none => none
        | some v => some (Value.num (encCode arts.label_encoders c v))) := by
    intro c hc hraw henc hnotOrder hne1 hne2
    rw [lookupField_setCol_ne _ _ _ _ hne1, lookupField_setCol_ne _ _ _ _ hne2]
    have h := lookupField_encodeCats_encoded arts.label_encoders c categorical_cols input
      hc (by decide) hraw henc
    rw [wf_lookup_none input hwf _ hnotOrder] at h
    exact h
  have h8 : lookupField
      (setCol (setCol (encodeCats arts.label_encoders input categorical_cols)
        "distance_squared" (Value.num (d ^ 2)))
        "rating_distance_interaction" (Value.num (r * d)))
      "distance_squared" = some (.num (d ^ 2)) := by
    rw [lookupField_setCol_ne _ _ _ "distance_squared" (by decide)]
    exact lookupField_setCol_self _ _ _
  have h9 : lookupField
      (setCol (setCol (encodeCats arts.label_encoders input categorical_cols)
        "distance_squared" (Value.num (d ^ 2)))
        "rating_distance_interaction" (Value.num (r * d)))
      "rating_distance_interaction" = some (.num (r * d)) :=
    lookupField_setCol_self _ _ _
  have hv := hencL "vehicle_type" (by decide) (by decide) (by decide) (by decide)
    (by decide) (by decide)
  have ho := hencL "order_type" (by decide) (by decide) (by decide) (by decide)
    (by decide) (by decide)
  have hw := hencL "weather_condition" (by decide) (by decide) (by decide) (by decide)
    (by decide) (by decide)
  have ht := hencL "time_of_day" (by decide) (by decide) (by decide) (by decide)
    (by decide) (by decide)
  have hdw := hencL "day_of_week" (by decide) (by decide) (by decide) (by decide)
    (by decide) (by decide)
  unfold preprocess_input featureEngineer
  rw [hdE, hrE, hcols]
  simp only [Option.map_some', selectFill, trainedFeatureCols, List.map_cons, List.map_nil,
    h0, h1, h2, h8, h9]
  rw [show ("vehicle_type_encoded" : String) = "vehicle_type" ++ "_encoded" from rfl,
      show ("order_type_encoded" : String) = "order_type" ++ "_encoded" from rfl,
      show ("weather_condition_encoded" : String) = "weather_condition" ++ "_encoded" from rfl,
      show ("time_of_day_encoded" : String) = "time_of_day" ++ "_encoded" from rfl,
      show ("day_of_week_encoded" : String) = "day_of_week" ++ "_encoded" from rfl,
      hv, ho, hw, ht, hdw]
  rw [fill_prep input hwf, fill_of_enc, fill_of_enc, fill_of_enc, fill_of_enc, fill_of_enc]

/-- `round` of a non-negative quantity is non-negative. -/
theorem pyRound_nonneg (q : ℚ) (h : 0 ≤ q) : 0 ≤ pyRound q := by
  have hf : (0 : ℤ) ≤ ⌊q⌋ := Int.floor_nonneg.mpr h
  unfold pyRound
  split_ifs <;> omega

/-- `scaler.transform` on the ten trained feature columns, all numeric. -/
theorem scaleFeatures_trained (arts : ModelArtifacts)
    (hcols : arts.feature_columns = trainedFeatureCols)
    (q0 q1 q2 q3 q4 q5 q6 q7 q8 q9 : ℚ) :
    scaleFeatures arts
      [.num q0, .num q1, .num q2, .num q3, .num q4,
       .num q5, .num q6, .num q7, .num q8, .num q9] = some
      [(q0 - arts.scalerMean "delivery_person_rating") / arts.scalerStd "delivery_person_rating",
       (q1 - arts.scalerMean "distance_km") / arts.scalerStd "distance_km",
       (q2 - arts.scalerMean "preparation_time") / arts.scalerStd "preparation_time",
       (q3 - arts.scalerMean "vehicle_type_encoded") / arts.scalerStd "vehicle_type_encoded",
       (q4 - arts.scalerMean "order_type_encoded") / arts.scalerStd "order_type_encoded",
       (q5 - arts.scalerMean "weather_condition_encoded") / arts.scalerStd "weather_condition_encoded",
       (q6 - arts.scalerMean "time_of_day_encoded") / arts.scalerStd "time_of_day_encoded",
       (q7 - arts.scalerMean "day_of_week_encoded") / arts.scalerStd "day_of_week_encoded",
       (q8 - arts.scalerMean "distance_squared") / arts.scalerStd "distance_squared",
       (q9 - arts.scalerMean "rating_distance_interaction") / arts.scalerStd "rating_distance_interaction"] := by
  unfold scaleFeatures
  rw [hcols]
  rfl

/-- `predict` on a loaded bundle with trained feature columns and a
well-formed input carrying numeric `distance_km` and
`delivery_person_rating` succeeds, returning the ensemble mean and the
confidence formula applied to it. -/
theorem predict_eq_ok (sqrtFn : ℚ → ℚ) (arts : ModelArtifacts)
    (hcols : arts.feature_columns = trainedFeatureCols)
    (input : InputRecord) (hwf : WellFormedInput input) (d r : ℚ)
    (hd : lookupField input "distance_km" = some (.num d))
    (hr : lookupField input "delivery_person_rating" = some (.num r))
    (xs : List ℚ)
    (hxs : scaleFeatures arts
      [.num r, .num d, .num (prepVal input),
       .num (encVal arts.label_encoders input "vehicle_type"),
       .num (encVal arts.label_encoders input "order_type"),
       .num (encVal arts.label_encoders input "weather_condition"),
       .num (encVal arts.label_encoders input "time_of_day"),
       .num (encVal arts.label_encoders input "day_of_week"),
       .num (d ^ 2), .num (r * d)] = some xs) :
    predict sqrtFn (some arts) input = .ok
      { estimated_time := ensembleMean (arts.trees.map (fun t => t xs))
        confidence := confidence (sqrtFn (ensembleVariance (arts.trees.map (fun t => t xs))))
          (ensembleMean (arts.trees.map (fun t => t xs)))
        prediction_std := sqrtFn (ensembleVariance (arts.trees.map (fun t => t xs))) } := by
  unfold predict
  simp only [preprocess_input_spec arts hcols input hwf d r hd hr, hxs]

/-- `predict` succeeds on any well-formed input carrying numeric
`distance_km` and `delivery_person_rating`. -/
theorem predict_isOk (sqrtFn : ℚ → ℚ) (arts : ModelArtifacts)
    (hcols : arts.feature_columns = trainedFeatureCols)
    (input : InputRecord) (hwf : WellFormedInput input) (d r : ℚ)
    (hd : lookupField input "distance_km" = some (.num d))
    (hr : lookupField input "delivery_person_rating" = some (.num r)) :
    ∃ res, predict sqrtFn (some arts) input = .ok res :=
  ⟨_, predict_eq_ok sqrtFn arts hcols input hwf d r hd hr _
    (scaleFeatures_trained arts hcols r d (prepVal input)
      (encVal arts.label_encoders input "vehicle_type")
      (encVal arts.label_encoders input "order_type")
      (encVal arts.label_encoders input "weather_condition")
      (encVal arts.label_encoders input "time_of_day")
      (encVal arts.label_encoders input "day_of_week")
      (d ^ 2) (r * d))⟩

/-- Full characterisation of `predict_with_breakdown` when the underlying
`predict` succeeds and the three numeric breakdown parameters are numbers
(present or defaulted). -/
theorem predict_with_breakdown_eq (sqrtFn : ℚ → ℚ) (artifacts : Option ModelArtifacts)
    (input : InputRecord) (base : PredictionResult)
    (hb : predict sqrtFn artifacts input = .ok base)
    (prep dist rating : ℚ)
    (hp : asNum (getParam input "preparation_time" (.num 15)) = some prep)
    (hdi : asNum (getParam input "distance_km" (.num 3)) = some dist)
    (hra : asNum (getParam input "delivery_person_rating" (.num 4)) = some rating) :
    predict_with_breakdown sqrtFn artifacts input = .ok
      { estimated_time := base.estimated_time
        confidence := base.confidence
        prediction_std := base.prediction_std
        breakdown :=
          { preparation_time := pyRound prep
            travel_time := pyRound (dist *
              (if getParam input "vehicle_type" (.str "bike") = .str "bike" then 7 / 2 else 5) /
              (rating / 5 * (4 / 5) + 1 / 5))
            weather_delay := pyRound (weatherDelay (getParam input "weather_condition" (.str "clear")))
            traffic_and_other := pyRound (max 0 (base.estimated_time - prep -
              dist * (if getParam input "vehicle_type" (.str "bike") = .str "bike" then 7 / 2 else 5) /
                (rating / 5 * (4 / 5) + 1 / 5) -
              weatherDelay (getParam input "weather_condition" (.str "clear")))) }
        factors :=
          { delivery_person_rating := getParam input "delivery_person_rating" (.num 4)
            vehicle_type := getParam input "vehicle_type" (.str "bike")
            distance_km := getParam input "distance_km" (.num 3)
            weather_condition := getParam input "weather_condition" (.str "clear") } } := by
  unfold predict_with_breakdown
  rw [hb]
  simp only [hp, hdi, hra]


/-- Feature engineering raises whenever `distance_km` or
`delivery_person_rating` is absent or was consumed before it (predict.py
lines 58-61 index both columns unconditionally). -/
theorem featureEngineer_none_of_missing (df : InputRecord)
    (h : lookupField df "distance_km" = none ∨
      lookupField df "delivery_person_rating" = none) :
    featureEngineer df = none := by
  unfold featureEngineer
  rcases h with h | h
  · rw [h]
  · rw [h]
    cases hdd : lookupField df "distance_km" with
    | none => rfl
    | some v => cases v <;> rfl

/-- `preprocess_input` fails on any record missing `distance_km` or
`delivery_person_rating`: the failure happens in feature engineering,
before the zero-fill loop can run. -/
theorem preprocess_none_of_missing (arts : ModelArtifacts) (input : InputRecord)
    (h : lookupField input "distance_km" = none ∨
      lookupField input "delivery_person_rating" = none) :
    preprocess_input arts input = none := by
  unfold preprocess_input
  rw [featureEngineer_none_of_missing]
  · rfl
  · rcases h with h | h
    · exact Or.inl (by
        rw [lookupField_encodeCats_of_ne arts.label_encoders input categorical_cols
          "distance_km" (by decide)]
        exact h)
    · exact Or.inr (by
        rw [lookupField_encodeCats_of_ne arts.label_encoders input categorical_cols
          "delivery_person_rating" (by decide)]
        exact h)

/-- `predict` wraps the preprocessing failure on a record missing
`distance_km` or `delivery_person_rating` into the prediction-failed
error. -/
theorem predict_failed_of_missing (sqrtFn : ℚ → ℚ) (arts : ModelArtifacts)
    (input : InputRecord)
    (h : lookupField input "distance_km" = none ∨
      lookupField input "delivery_person_rating" = none) :
    predict sqrtFn (some arts) input = .error .predictionFailed := by
  unfold predict
  simp only [preprocess_none_of_missing arts input h]

/-- `predict_with_breakdown` propagates that failure: the record's
breakdown is never computed. -/
theorem predict_with_breakdown_failed_of_missing (sqrtFn : ℚ → ℚ)
    (arts : ModelArtifacts) (input : InputRecord)
    (h : lookupField input "distance_km" = none ∨
      lookupField input "delivery_person_rating" = none) :
    predict_with_breakdown sqrtFn (some arts) input = .error .predictionFailed := by
  unfold predict_with_breakdown
  simp only [predict_failed_of_missing sqrtFn arts input h]

/-! ## The claims -/

/-- C1: for every valid input on which `predict` succeeds (modelled by an
arbitrary non-empty list of positive ensemble-member predictions, positive
because each tree averages training labels that are all at least 10), the
confidence is the lower-clamp at 0.6 of `1 - std/estimate` and lies in the
closed interval [0.6, 1]; `std` is the (non-negative) square root of the
population variance of the members' predictions. -/
theorem claim_C1 (preds : List ℚ) (s : ℚ) (hne : preds ≠ [])
    (hpos : ∀ p ∈ preds, 0 < p) (hs : 0 ≤ s)
    (_hvar : s * s = ensembleVariance preds) :
    confidence s (ensembleMean preds) = max (6 / 10) (1 - s / ensembleMean preds) ∧
    6 / 10 ≤ confidence s (ensembleMean preds) ∧
    confidence s (ensembleMean preds) ≤ 1 := by
  have hm : 0 < ensembleMean preds := by
    unfold ensembleMean
    apply div_pos (List.sum_pos preds hpos hne)
    exact_mod_cast List.length_pos.mpr hne
  refine ⟨rfl, le_max_left _ _, max_le (by norm_num) ?_⟩
  have h2 : 0 ≤ s / ensembleMean preds := div_nonneg hs hm.le
  linarith

theorem claim_C1_witness :
    confidence 0 (ensembleMean [20, 20]) = max (6 / 10) (1 - 0 / ensembleMean [20, 20]) ∧
    6 / 10 ≤ confidence 0 (ensembleMean [20, 20]) ∧
    confidence 0 (ensembleMean [20, 20]) ≤ 1 :=
  claim_C1 [20, 20] 0 (by simp)
    (by intro p hp; fin_cases hp <;> norm_num) le_rfl
    (by norm_num [ensembleVariance, ensembleMean])

/-- C2: with no loaded bundle — `load_model` failed, or the state is still
`None` — `predict` reports the explicit model-not-loaded condition on every
input, before any encoding, scaling or inference, and never any other
error. -/
theorem claim_C2 (sqrtFn : ℚ → ℚ) (err : String) (input : InputRecord) :
    predict sqrtFn (load_model (.error err)) input = .error .modelNotLoaded ∧
    predict sqrtFn none input = .error .modelNotLoaded :=
  ⟨rfl, rfl⟩

/-- C7: the Ground-Truth Time Function equals
`(preparation + travel + weather + order + time) * weekend_factor + noise`
floored below at 10, with the section-4.2 tables; in particular its output
is at least 10 on all inputs. -/
theorem claim_C7 (row : OrderRow) (noise : ℚ) :
    calculate_delivery_time row noise =
      max ((row.preparation_time +
        row.distance_km * (if row.vehicle_type = "bike" then 7 / 2 else 5) /
          (row.delivery_person_rating / 5 * (4 / 5) + 1 / 5) +
        weatherDelayStr row.weather_condition +
        (if row.order_type = "delicate" then 3 else 0) +
        timeDelayStr row.time_of_day) *
        (if row.day_of_week = "weekend" then 9 / 10 else 1) + noise) 10 ∧
    10 ≤ calculate_delivery_time row noise := by
  constructor
  · rfl
  · exact le_max_right _ _

/-- C8: every record produced by the Synthetic Data Generator has
`distance_km ≥ 0` (absolute value applied) and `preparation_time ≥ 5`
(floored at 5). -/
theorem claim_C8 (draws : List RawDraws) (rec : OrderRow)
    (h : rec ∈ generate_sample_data draws) :
    0 ≤ rec.distance_km ∧ 5 ≤ rec.preparation_time := by
  obtain ⟨dr, _, rfl⟩ := List.mem_map.mp h
  exact ⟨abs_nonneg _, le_max_right _ _⟩

theorem claim_C8_witness :
    mkRecord ⟨3, -2, 1, "bike", "normal", "clear", "morning", "weekday"⟩ ∈
      generate_sample_data [⟨3, -2, 1, "bike", "normal", "clear", "morning", "weekday"⟩] ∧
    0 ≤ (mkRecord ⟨3, -2, 1, "bike", "normal", "clear", "morning", "weekday"⟩).distance_km ∧
    5 ≤ (mkRecord ⟨3, -2, 1, "bike", "normal", "clear", "morning", "weekday"⟩).preparation_time := by
  have hmem : mkRecord ⟨3, -2, 1, "bike", "normal", "clear", "morning", "weekday"⟩ ∈
      generate_sample_data [⟨3, -2, 1, "bike", "normal", "clear", "morning", "weekday"⟩] := by
    simp [generate_sample_data]
  exact ⟨hmem, claim_C8 _ _ hmem⟩

/-- C9: the Synthetic Data Generator is deterministic under a fixed seed:
the seeding on entry makes the draws a pure function of the seed and the
sample count, so two runs with the same seed and count produce identical
record tables. -/
theorem claim_C9 (rng : Nat → Nat → List RawDraws) (seed1 seed2 n1 n2 : Nat)
    (hs : seed1 = seed2) (hn : n1 = n2) :
    generate_sample_data_seeded rng seed1 n1 = generate_sample_data_seeded rng seed2 n2 := by
  rw [hs, hn]

theorem claim_C9_witness :
    generate_sample_data_seeded
      (fun _ n => List.replicate n ⟨3, 1, 10, "bike", "normal", "clear", "morning", "weekday"⟩)
      42 5 =
    generate_sample_data_seeded
      (fun _ n => List.replicate n ⟨3, 1, 10, "bike", "normal", "clear", "morning", "weekday"⟩)
      42 5 :=
  claim_C9 _ 42 42 5 5 rfl rfl

/-- The spec example order is a well-formed Order Record. -/
theorem exampleInput_wf : WellFormedInput exampleInput := by
  intro p hp
  simp only [exampleInput, List.mem_cons, List.not_mem_nil, or_false] at hp
  rcases hp with rfl | rfl | rfl | rfl | rfl | rfl | rfl | rfl <;>
    simp [orderFields, categorical_cols]

/-- Shared inversion of a successful `predict_with_breakdown` call: the
three numeric parameters are numbers, and every breakdown component is the
rounding of its formula value, with the residual clamped at 0. -/
theorem breakdown_spec (sqrtFn : ℚ → ℚ) (artifacts : Option ModelArtifacts)
    (input : InputRecord) (res : BreakdownResult)
    (h : predict_with_breakdown sqrtFn artifacts input = .ok res) :
    ∃ prep dist rating : ℚ,
      asNum (getParam input "preparation_time" (.num 15)) = some prep ∧
      asNum (getParam input "distance_km" (.num 3)) = some dist ∧
      asNum (getParam input "delivery_person_rating" (.num 4)) = some rating ∧
      res.breakdown.traffic_and_other =
        pyRound (max 0 (res.estimated_time - prep -
          dist * (if getParam input "vehicle_type" (.str "bike") = .str "bike" then 7 / 2 else 5) /
            (rating / 5 * (4 / 5) + 1 / 5) -
          weatherDelay (getParam input "weather_condition" (.str "clear")))) ∧
      0 ≤ res.breakdown.traffic_and_other ∧
      res.breakdown.preparation_time = pyRound prep ∧
      res.breakdown.travel_time = pyRound (dist *
        (if getParam input "vehicle_type" (.str "bike") = .str "bike" then 7 / 2 else 5) /
        (rating / 5 * (4 / 5) + 1 / 5)) ∧
      res.breakdown.weather_delay =
        pyRound (weatherDelay (getParam input "weather_condition" (.str "clear"))) ∧
      res.factors =
        { delivery_person_rating := getParam input "delivery_person_rating" (.num 4)
          vehicle_type := getParam input "vehicle_type" (.str "bike")
          distance_km := getParam input "distance_km" (.num 3)
          weather_condition := getParam input "weather_condition" (.str "clear") } := by
  cases hb : predict sqrtFn artifacts input with
  | error e =>
    unfold predict_with_breakdown at h
    rw [hb] at h
    simp at h
  | ok base =>
    cases hp : asNum (getParam input "preparation_time" (.num 15)) with
    | none =>
      unfold predict_with_breakdown at h
      rw [hb] at h
      simp only [hp] at h
      simp at h
    | some prep =>
      cases hdi : asNum (getParam input "distance_km" (.num 3)) with
      | none =>
        unfold predict_with_breakdown at h
        rw [hb] at h
        simp only [hp, hdi] at h
        simp at h
      | some dist =>
        cases hra : asNum (getParam input "delivery_person_rating" (.num 4)) with
        | none =>
          unfold predict_with_breakdown at h
          rw [hb] at h
          simp only [hp, hdi, hra] at h
          simp at h
        | some rating =>
          rw [predict_with_breakdown_eq sqrtFn artifacts input base hb
            prep dist rating hp hdi hra] at h
          simp only [Except.ok.injEq] at h
          subst h
          exact ⟨prep, dist, rating, rfl, rfl, rfl, rfl,
            pyRound_nonneg _ (le_max_left 0 _), rfl, rfl, rfl, rfl⟩

/-- C5: whenever `predict_with_breakdown` succeeds, `traffic_and_other` is
the residual `max(0, estimated_time - preparation - travel - weather)`
rounded — hence non-negative — and every numeric breakdown component is
the nearest-integer rounding of its pre-rounding value. -/
theorem claim_C5 (sqrtFn : ℚ → ℚ) (artifacts : Option ModelArtifacts)
    (input : InputRecord) (res : BreakdownResult)
    (h : predict_with_breakdown sqrtFn artifacts input = .ok res) :
    ∃ prep dist rating : ℚ,
      asNum (getParam input "preparation_time" (.num 15)) = some prep ∧
      asNum (getParam input "distance_km" (.num 3)) = some dist ∧
      asNum (getParam input "delivery_person_rating" (.num 4)) = some rating ∧
      res.breakdown.traffic_and_other =
        pyRound (max 0 (res.estimated_time - prep -
          dist * (if getParam input "vehicle_type" (.str "bike") = .str "bike" then 7 / 2 else 5) /
            (rating / 5 * (4 / 5) + 1 / 5) -
          weatherDelay (getParam input "weather_condition" (.str "clear")))) ∧
      0 ≤ res.breakdown.traffic_and_other ∧
      res.breakdown.preparation_time = pyRound prep ∧
      res.breakdown.travel_time = pyRound (dist *
        (if getParam input "vehicle_type" (.str "bike") = .str "bike" then 7 / 2 else 5) /
        (rating / 5 * (4 / 5) + 1 / 5)) ∧
      res.breakdown.weather_delay =
        pyRound (weatherDelay (getParam input "weather_condition" (.str "clear"))) := by
  obtain ⟨prep, dist, rating, hp, hdi, hra, h1, h2, h3, h4, h5, -⟩ :=
    breakdown_spec sqrtFn artifacts input res h
  exact ⟨prep, dist, rating, hp, hdi, hra, h1, h2, h3, h4, h5⟩

theorem claim_C5_witness :
    ∃ res, predict_with_breakdown sqrtZero (some sampleArts) exampleInput = .ok res ∧
      0 ≤ res.breakdown.traffic_and_other := by
  obtain ⟨base, hb⟩ := predict_isOk sqrtZero sampleArts rfl exampleInput exampleInput_wf
    (7 / 2) (21 / 5) rfl rfl
  have hok := predict_with_breakdown_eq sqrtZero (some sampleArts) exampleInput base hb
    15 (7 / 2) (21 / 5) rfl rfl rfl
  obtain ⟨prep, dist, rating, _, _, _, _, hnn, _, _, _⟩ :=
    claim_C5 sqrtZero (some sampleArts) exampleInput _ hok
  exact ⟨_, hok, hnn⟩

/-- C6: whenever `predict_with_breakdown` succeeds, the breakdown's
`travel_time` is `distance * base_speed / efficiency` with
`base_speed = 3.5` for a bike and `5.0` otherwise and
`efficiency = (rating/5)*0.8 + 0.2`, its `weather_delay` comes from the
weather table, and its `preparation_time` is the input's — all computed
from the input fields, not from the model. -/
theorem claim_C6 (sqrtFn : ℚ → ℚ) (artifacts : Option ModelArtifacts)
    (input : InputRecord) (res : BreakdownResult)
    (h : predict_with_breakdown sqrtFn artifacts input = .ok res) :
    ∃ prep dist rating : ℚ,
      asNum (getParam input "preparation_time" (.num 15)) = some prep ∧
      asNum (getParam input "distance_km" (.num 3)) = some dist ∧
      asNum (getParam input "delivery_person_rating" (.num 4)) = some rating ∧
      res.breakdown.travel_time = pyRound (dist *
        (if getParam input "vehicle_type" (.str "bike") = .str "bike" then 7 / 2 else 5) /
        (rating / 5 * (4 / 5) + 1 / 5)) ∧
      res.breakdown.weather_delay =
        pyRound (weatherDelay (getParam input "weather_condition" (.str "clear"))) ∧
      res.breakdown.preparation_time = pyRound prep := by
  obtain ⟨prep, dist, rating, hp, hdi, hra, _, _, hprep, htravel, hwea, -⟩ :=
    breakdown_spec sqrtFn artifacts input res h
  exact ⟨prep, dist, rating, hp, hdi, hra, htravel, hwea, hprep⟩

theorem claim_C6_witness :
    ∃ res, predict_with_breakdown sqrtZero (some sampleArts) exampleInput = .ok res ∧
      res.breakdown.preparation_time = 15 ∧ res.breakdown.weather_delay = 0 ∧
      res.breakdown.travel_time = 14 := by
  obtain ⟨base, hb⟩ := predict_isOk sqrtZero sampleArts rfl exampleInput exampleInput_wf
    (7 / 2) (21 / 5) rfl rfl
  have hok := predict_with_breakdown_eq sqrtZero (some sampleArts) exampleInput base hb
    15 (7 / 2) (21 / 5) rfl rfl rfl
  obtain ⟨prep, dist, rating, hp, hdi, hra, htravel, hwea, hprep⟩ :=
    claim_C6 sqrtZero (some sampleArts) exampleInput _ hok
  have hprep' : prep = 15 := by
    have : asNum (getParam exampleInput "preparation_time" (.num 15)) = some 15 := rfl
    rw [this] at hp
    exact (Option.some_inj.mp hp).symm
  have hdist' : dist = 7 / 2 := by
    have : asNum (getParam exampleInput "distance_km" (.num 3)) = some (7 / 2) := rfl
    rw [this] at hdi
    exact (Option.some_inj.mp hdi).symm
  have hrat' : rating = 21 / 5 := by
    have : asNum (getParam exampleInput "delivery_person_rating" (.num 4)) = some (21 / 5) := rfl
    rw [this] at hra
    exact (Option.some_inj.mp hra).symm
  subst hprep' hdist' hrat'
  refine ⟨_, hok, ?_, ?_, ?_⟩
  · rw [hprep]
    norm_num [pyRound]
  · rw [hwea]
    have : weatherDelay (getParam exampleInput "weather_condition" (.str "clear")) = 0 := rfl
    rw [this]
    norm_num [pyRound]
  · rw [htravel]
    have : getParam exampleInput "vehicle_type" (.str "bike") = .str "bike" := rfl
    rw [this, if_pos rfl]
    norm_num [pyRound]

/-- A minimal record carrying only the two numeric fields the feature
engineering requires. -/
def pairInput : InputRecord :=
  [("distance_km", Value.num 2), ("delivery_person_rating", Value.num 5)]

theorem pairInput_wf : WellFormedInput pairInput := by
  intro p hp
  simp only [pairInput, List.mem_cons, List.not_mem_nil, or_false] at hp
  rcases hp with rfl | rfl <;> simp [orderFields, categorical_cols]

/-- C3 (amended): on a well-formed record, each absent feature column is
zero-filled and the call completes non-fatally — provided `distance_km`
and `delivery_person_rating` are present and numeric.  The ten trained
feature columns are: the two hypothesised numeric fields, the six columns
that can be absent (`preparation_time` at index 2 and the five encoded
categorical columns at indices 3-7, absent exactly when their raw field
is), and the two engineered columns, always recreated.  When `distance_km`
or `delivery_person_rating` is absent, preprocessing raises instead (the
`KeyError` of the feature engineering, wrapped by `predict` into the
prediction-failed error), so the zero-fill never applies to them. -/
theorem claim_C3 (arts : ModelArtifacts) (hcols : arts.feature_columns = trainedFeatureCols)
    (sqrtFn : ℚ → ℚ) (input : InputRecord) (hwf : WellFormedInput input) (d r : ℚ)
    (hd : lookupField input "distance_km" = some (.num d))
    (hr : lookupField input "delivery_person_rating" = some (.num r)) :
    (∃ vals, preprocess_input arts input = some vals ∧
      (lookupField input "preparation_time" = none → vals[2]? = some (.num 0)) ∧
      (lookupField input "vehicle_type" = none → vals[3]? = some (.num 0)) ∧
      (lookupField input "order_type" = none → vals[4]? = some (.num 0)) ∧
      (lookupField input "weather_condition" = none → vals[5]? = some (.num 0)) ∧
      (lookupField input "time_of_day" = none → vals[6]? = some (.num 0)) ∧
      (lookupField input "day_of_week" = none → vals[7]? = some (.num 0))) ∧
    (∃ res, predict sqrtFn (some arts) input = .ok res) ∧
    (∀ input' : InputRecord,
      lookupField input' "distance_km" = none ∨
      lookupField input' "delivery_person_rating" = none →
      preprocess_input arts input' = none ∧
      predict sqrtFn (some arts) input' = .error .predictionFailed) := by
  refine ⟨⟨_, preprocess_input_spec arts hcols input hwf d r hd hr,
      ?_, ?_, ?_, ?_, ?_, ?_⟩,
    predict_isOk sqrtFn arts hcols input hwf d r hd hr,
    fun input' h' => ⟨preprocess_none_of_missing arts input' h',
      predict_failed_of_missing sqrtFn arts input' h'⟩⟩
  · intro habs
    show some (Value.num (prepVal input)) = some (.num 0)
    unfold prepVal
    rw [habs]
  · intro habs
    show some (Value.num (encVal arts.label_encoders input "vehicle_type")) = some (.num 0)
    unfold encVal
    rw [habs]
  · intro habs
    show some (Value.num (encVal arts.label_encoders input "order_type")) = some (.num 0)
    unfold encVal
    rw [habs]
  · intro habs
    show some (Value.num (encVal arts.label_encoders input "weather_condition")) = some (.num 0)
    unfold encVal
    rw [habs]
  · intro habs
    show some (Value.num (encVal arts.label_encoders input "time_of_day")) = some (.num 0)
    unfold encVal
    rw [habs]
  · intro habs
    show some (Value.num (encVal arts.label_encoders input "day_of_week")) = some (.num 0)
    unfold encVal
    rw [habs]

theorem claim_C3_counterexample :
    preprocess_input sampleArts exampleNoDistance = none ∧
    predict sqrtZero (some sampleArts) exampleNoDistance = .error .predictionFailed :=
  ⟨rfl, rfl⟩

theorem claim_C3_witness :
    (∃ vals, preprocess_input sampleArts pairInput = some vals ∧
      vals[2]? = some (.num 0) ∧ vals[3]? = some (.num 0) ∧
      vals[4]? = some (.num 0) ∧ vals[5]? = some (.num 0) ∧
      vals[6]? = some (.num 0) ∧ vals[7]? = some (.num 0)) ∧
    preprocess_input sampleArts [("distance_km", Value.num 2)] = none ∧
    predict sqrtZero (some sampleArts) [("distance_km", Value.num 2)] =
      .error .predictionFailed := by
  obtain ⟨⟨vals, hv, h2, h3, h4, h5, h6, h7⟩, -, hfail⟩ :=
    claim_C3 sampleArts rfl sqrtZero pairInput pairInput_wf 2 5 rfl rfl
  obtain ⟨hf1, hf2⟩ := hfail [("distance_km", Value.num 2)] (Or.inr rfl)
  exact ⟨⟨vals, hv, h2 rfl, h3 rfl, h4 rfl, h5 rfl, h6 rfl, h7 rfl⟩, hf1, hf2⟩

/-- A record whose `vehicle_type` holds a category the persisted encoder
has never seen. -/
def exampleDrone : InputRecord :=
  [("delivery_person_rating", .num (21 / 5)), ("distance_km", .num (7 / 2)),
   ("preparation_time", .num 15), ("vehicle_type", .str "drone"),
   ("order_type", .str "normal"), ("weather_condition", .str "clear"),
   ("time_of_day", .str "evening"), ("day_of_week", .str "weekday")]

theorem exampleDrone_wf : WellFormedInput exampleDrone := by
  intro p hp
  simp only [exampleDrone, List.mem_cons, List.not_mem_nil, or_false] at hp
  rcases hp with rfl | rfl | rfl | rfl | rfl | rfl | rfl | rfl <;>
    simp [orderFields, categorical_cols]

/-- C4: a categorical value unseen by the persisted encoder does not make
encoding raise: the caught `ValueError` leads to the default code 0 for the
encoded column (the warning is a print, outside the data path) and the
prediction proceeds to a successful result. -/
theorem claim_C4 (arts : ModelArtifacts) (hcols : arts.feature_columns = trainedFeatureCols)
    (sqrtFn : ℚ → ℚ) (input : InputRecord) (hwf : WellFormedInput input) (d r : ℚ)
    (hd : lookupField input "distance_km" = some (.num d))
    (hr : lookupField input "delivery_person_rating" = some (.num r))
    (c : String) (_hc : c ∈ categorical_cols) (s : String)
    (hcs : lookupField input c = some (.str s))
    (hunseen : (arts.label_encoders c).transform s = none) :
    preprocess_input arts input = some
      [.num r, .num d, .num (prepVal input),
       .num (encVal arts.label_encoders input "vehicle_type"),
       .num (encVal arts.label_encoders input "order_type"),
       .num (encVal arts.label_encoders input "weather_condition"),
       .num (encVal arts.label_encoders input "time_of_day"),
       .num (encVal arts.label_encoders input "day_of_week"),
       .num (d ^ 2), .num (r * d)] ∧
    encVal arts.label_encoders input c = 0 ∧
    (∃ res, predict sqrtFn (some arts) input = .ok res) := by
  refine ⟨preprocess_input_spec arts hcols input hwf d r hd hr, ?_,
    predict_isOk sqrtFn arts hcols input hwf d r hd hr⟩
  simp only [encVal, hcs, encCode, hunseen]

theorem claim_C4_witness :
    encVal sampleArts.label_encoders exampleDrone "vehicle_type" = 0 ∧
    ∃ res, predict sqrtZero (some sampleArts) exampleDrone = .ok res := by
  obtain ⟨-, h0, hok⟩ := claim_C4 sampleArts rfl sqrtZero exampleDrone exampleDrone_wf
    (7 / 2) (21 / 5) rfl rfl "vehicle_type" (by decide) "drone" rfl rfl
  exact ⟨h0, hok⟩

/-- The spec example order with its `vehicle_type` column omitted. -/
def exampleNoVehicle : InputRecord :=
  [("delivery_person_rating", .num (21 / 5)), ("distance_km", .num (7 / 2)),
   ("preparation_time", .num 15),
   ("order_type", .str "normal"), ("weather_condition", .str "clear"),
   ("time_of_day", .str "evening"), ("day_of_week", .str "weekday")]

theorem exampleNoVehicle_wf : WellFormedInput exampleNoVehicle := by
  intro p hp
  simp only [exampleNoVehicle, List.mem_cons, List.not_mem_nil, or_false] at hp
  rcases hp with rfl | rfl | rfl | rfl | rfl | rfl | rfl <;>
    simp [orderFields, categorical_cols]

/-- C10 (amended): on every successful `predict_with_breakdown` call, each
omitted field falls back independently to its hard-coded default —
`preparation_time` to 15, `vehicle_type` to `'bike'` (giving the bike base
speed in `travel_time`), `weather_condition` to `'clear'` (delay 0) — with
the vehicle/weather fallbacks echoed in `factors`, and any weather value
outside the lookup table yields delay 0.  Omitting `distance_km` or
`delivery_person_rating` instead makes `predict` — called first — fail, so
their fallbacks (3 and 4) are unreachable on the omission path. -/
theorem claim_C10 (sqrtFn : ℚ → ℚ) (artifacts : Option ModelArtifacts)
    (input : InputRecord) (res : BreakdownResult)
    (h : predict_with_breakdown sqrtFn artifacts input = .ok res) :
    ∃ prep dist rating : ℚ,
      asNum (getParam input "preparation_time" (.num 15)) = some prep ∧
      asNum (getParam input "distance_km" (.num 3)) = some dist ∧
      asNum (getParam input "delivery_person_rating" (.num 4)) = some rating ∧
      (lookupField input "preparation_time" = none →
        prep = 15 ∧ res.breakdown.preparation_time = 15) ∧
      (lookupField input "vehicle_type" = none →
        res.factors.vehicle_type = .str "bike" ∧
        res.breakdown.travel_time =
          pyRound (dist * (7 / 2) / (rating / 5 * (4 / 5) + 1 / 5))) ∧
      (lookupField input "weather_condition" = none →
        res.factors.weather_condition = .str "clear" ∧
        res.breakdown.weather_delay = 0) ∧
      (∀ s : String, s ∉ ["clear", "cloudy", "light_rain", "heavy_rain", "storm"] →
        weatherDelay (.str s) = 0) ∧
      (∀ (arts : ModelArtifacts) (input' : InputRecord),
        lookupField input' "distance_km" = none ∨
        lookupField input' "delivery_person_rating" = none →
        predict_with_breakdown sqrtFn (some arts) input' = .error .predictionFailed) := by
  obtain ⟨prep, dist, rating, hp, hdi, hra, -, -, hprepEq, htravelEq, hweaEq, hfactEq⟩ :=
    breakdown_spec sqrtFn artifacts input res h
  refine ⟨prep, dist, rating, hp, hdi, hra, ?_, ?_, ?_, ?_,
    fun arts input' h' => predict_with_breakdown_failed_of_missing sqrtFn arts input' h'⟩
  · intro habs
    have hgp : getParam input "preparation_time" (.num 15) = .num 15 := by
      unfold getParam; rw [habs]
    rw [hgp] at hp
    simp only [asNum] at hp
    have hp15 : prep = 15 := (Option.some_inj.mp hp).symm
    subst hp15
    refine ⟨rfl, ?_⟩
    rw [hprepEq]
    norm_num [pyRound]
  · intro habs
    have hgv : getParam input "vehicle_type" (.str "bike") = .str "bike" := by
      unfold getParam; rw [habs]
    constructor
    · rw [hfactEq, hgv]
    · rw [htravelEq, hgv, if_pos rfl]
  · intro habs
    have hgw : getParam input "weather_condition" (.str "clear") = .str "clear" := by
      unfold getParam; rw [habs]
    constructor
    · rw [hfactEq, hgw]
    · rw [hweaEq, hgw]
      norm_num [weatherDelay, weatherDelayStr, pyRound]
  · intro s hs
    have h1 : s ≠ "clear" := by intro he; subst he; exact hs (by decide)
    have h2 : s ≠ "cloudy" := by intro he; subst he; exact hs (by decide)
    have h3 : s ≠ "light_rain" := by intro he; subst he; exact hs (by decide)
    have h4 : s ≠ "heavy_rain" := by intro he; subst he; exact hs (by decide)
    have h5 : s ≠ "storm" := by intro he; subst he; exact hs (by decide)
    simp only [weatherDelay, weatherDelayStr,
      if_neg h1, if_neg h2, if_neg h3, if_neg h4, if_neg h5]

theorem claim_C10_counterexample :
    predict_with_breakdown sqrtZero (some sampleArts) exampleNoDistance =
      .error .predictionFailed :=
  rfl

theorem claim_C10_witness :
    ∃ res, predict_with_breakdown sqrtZero (some sampleArts) exampleNoVehicle = .ok res ∧
      res.factors.vehicle_type = .str "bike" ∧
      res.breakdown.travel_time = 14 ∧
      weatherDelay (.str "drizzle") = 0 ∧
      predict_with_breakdown sqrtZero (some sampleArts) [("distance_km", Value.num 2)] =
        .error .predictionFailed := by
  obtain ⟨base, hb⟩ := predict_isOk sqrtZero sampleArts rfl exampleNoVehicle
    exampleNoVehicle_wf (7 / 2) (21 / 5) rfl rfl
  have hok := predict_with_breakdown_eq sqrtZero (some sampleArts) exampleNoVehicle base hb
    15 (7 / 2) (21 / 5) rfl rfl rfl
  obtain ⟨prep, dist, rating, hp, hdi, hra, -, hvehc, -, hwunk, hfail⟩ :=
    claim_C10 sqrtZero (some sampleArts) exampleNoVehicle _ hok
  obtain ⟨hfv, htr⟩ := hvehc rfl
  have hdist : dist = 7 / 2 := by
    have hx : asNum (getParam exampleNoVehicle "distance_km" (.num 3)) = some (7 / 2) := rfl
    rw [hx] at hdi
    exact (Option.some_inj.mp hdi).symm
  have hrat : rating = 21 / 5 := by
    have hx : asNum (getParam exampleNoVehicle "delivery_person_rating" (.num 4)) =
        some (21 / 5) := rfl
    rw [hx] at hra
    exact (Option.some_inj.mp hra).symm
  subst hdist hrat
  refine ⟨_, hok, hfv, ?_, hwunk "drizzle" (by decide),
    hfail sampleArts [("distance_km", Value.num 2)] (Or.inr rfl)⟩
  rw [htr]
  norm_num [pyRound]


end FoodDelivery
